import Mathlib

/-!
Verification of the real-time call-room signaling layer of the
Telemedicine-Platform repository.

The embedded code is the Socket.IO section of the two server entry files
(`src/unnamed/part_002` and `src/unnamed/part_003`): the JWT auth
middleware (`io.use`), and the `join-call`, `leave-call`, `call-offer`,
`call-answer`, `ice-candidate`, `call-message`, and `disconnect` handlers
registered in `io.on('connection', ...)`.

Modelling choices, all taken from the source:
* A connected socket is a record of its server-assigned id, the
  `socket.userId` / `socket.userRole` fields set by the auth middleware,
  the set of Socket.IO rooms it is in (`socket.rooms`, mirrored by the
  adapter's room table), and the `socket.currentCallRooms` tracking set
  kept by `part_002`.  JS `Set`s are modelled as duplicate-free lists in
  insertion order (add is a no-op on an existing element).
* `io.sockets.adapter.rooms.get(roomName)` is derived from the sockets'
  room sets, exactly as Socket.IO keeps the adapter in sync.
* `socket.to(room).emit(ev)` delivers `ev` to every socket currently in
  `room` other than the sender.
* JS template interpolation of a possibly-`undefined` field
  (`` `call_${data.appointmentId}` ``) renders `undefined` as the string
  `"undefined"`; optional payload fields are `Option String`.
* Each handler is a pure function from the server state and the inbound
  payload to the new state plus the list of emitted events.
-/

/-- An emitted Socket.IO event, tagged with the id of the receiving
socket.  The constructors are the events the server emits in the
handlers: `room-joined`, `user-joined`, `user-left`, `call-offer`,
`call-answer`, `ice-candidate`, `call-message`. -/
inductive Event where
  | roomJoined (recvr : Nat) (isInitiator : Bool) (userId : String)
  | userJoined (recvr : Nat) (userId : String) (userRole : String)
  | userLeft (recvr : Nat) (userId : String)
  | callOffer (recvr : Nat) (offer : String) (fromUser : String)
  | callAnswer (recvr : Nat) (answer : String) (fromUser : String)
  | iceCandidate (recvr : Nat) (candidate : Option String) (fromUser : String)
  | callMessage (recvr : Nat) (message : Option String) (senderId : Option String)
      (senderName : Option String) (timestamp : Option String)
  deriving DecidableEq, Repr

/-- A connected socket: server-assigned connection id, the identity
fields the auth middleware stored on it (`socket.userId`,
`socket.userRole`), the Socket.IO rooms it is in (`socket.rooms`), and
the `socket.currentCallRooms` tracking set of `part_002`. -/
structure Socket where
  id : Nat
  userId : String
  userRole : String
  rooms : List String
  currentCallRooms : List String
  deriving DecidableEq, Repr

/-- The server state: the list of currently connected sockets.  The
adapter's room table is derived from the sockets' `rooms` sets. -/
structure ServerState where
  sockets : List Socket
  deriving DecidableEq, Repr

/-- The adapter query `io.sockets.adapter.rooms.get(roomName)` — the ids of the sockets
currently in `room` (an absent room is the empty set). -/
def roomMemberIds (s : ServerState) (room : String) : List Nat :=
  (s.sockets.filter (fun sk => room ∈ sk.rooms)).map (fun sk => sk.id)

/-- Find the connected socket with the given id. -/
def findSocket (s : ServerState) (sid : Nat) : Option Socket :=
  s.sockets.find? (fun sk => sk.id = sid)

/-- Replace the (first, hence in practice unique) socket with id `sid`
by `f` of it; the JS handlers mutate that one socket object in place. -/
def updateSockets : List Socket → Nat → (Socket → Socket) → List Socket
  | [], _, _ => []
  | sk :: rest, sid, f =>
      if sk.id = sid then f sk :: rest else sk :: updateSockets rest sid f

/-- Lift `updateSockets` to the server state. -/
def updateSocket (s : ServerState) (sid : Nat) (f : Socket → Socket) : ServerState :=
  ⟨updateSockets s.sockets sid f⟩

/-- The broadcast `socket.to(room).emit(...)` — one event per socket currently in
`room` other than the sender. -/
def emitToRoomExcept (s : ServerState) (room : String) (sender : Nat)
    (mk : Nat → Event) : List Event :=
  (s.sockets.filter (fun sk => room ∈ sk.rooms ∧ sk.id ≠ sender)).map
    (fun sk => mk sk.id)

/-- JS template interpolation of a field that may be `undefined`:
`undefined` renders as the string `"undefined"`. -/
def jsShow : Option String → String
  | some str => str
  | none => "undefined"

/-- The key computation `` const roomName = `call_${data.appointmentId}` ``. -/
def roomNameOf (appointmentId : Option String) : String :=
  "call_" ++ jsShow appointmentId

/-- JS `Set.prototype.add` on a set modelled as a duplicate-free list in
insertion order: adding an existing element is a no-op. -/
def setAdd (l : List String) (x : String) : List String :=
  if x ∈ l then l else l ++ [x]

/-- JS `Set.prototype.delete` / `socket.leave(room)`: remove the
element if present. -/
def setDelete (l : List String) (x : String) : List String :=
  l.filter (fun y => y ≠ x)

/-- The mutation `socket.join(roomName)` plus
`socket.currentCallRooms.add(roomName)` performed by the `part_002`
join handler. -/
def joinUpdate (roomName : String) (sk0 : Socket) : Socket :=
  { sk0 with rooms := setAdd sk0.rooms roomName,
             currentCallRooms := setAdd sk0.currentCallRooms roomName }

/-- The mutation `socket.leave(roomName)` plus
`socket.currentCallRooms.delete(roomName)` performed by the `part_002`
leave handler. -/
def leaveUpdate (roomName : String) (sk0 : Socket) : Socket :=
  { sk0 with rooms := setDelete sk0.rooms roomName,
             currentCallRooms := setDelete sk0.currentCallRooms roomName }

/-- Socket.IO's transport-level cleanup: on disconnect the socket has
left every room before the `disconnect` handler runs. -/
def clearRoomsUpdate (sk0 : Socket) : Socket := { sk0 with rooms := [] }

/-- The cleanup `socket.currentCallRooms.clear()` at the end of the `part_002`
disconnect handler. -/
def clearTrackUpdate (sk0 : Socket) : Socket :=
  { sk0 with currentCallRooms := [] }

/-- Payload of `join-call` / `leave-call`: `{appointmentId}`, the field
possibly absent. -/
structure CallRef where
  appointmentId : Option String
  deriving DecidableEq, Repr

/-- Payload of `call-offer`: `{appointmentId, offer}`. -/
structure OfferData where
  appointmentId : Option String
  offer : String
  deriving DecidableEq, Repr

/-- Payload of `call-answer`: `{appointmentId, answer}`. -/
structure AnswerData where
  appointmentId : Option String
  answer : String
  deriving DecidableEq, Repr

/-- Payload of `ice-candidate`: `{appointmentId, candidate}`; the
candidate may be `null` to signal end-of-candidates. -/
structure IceData where
  appointmentId : Option String
  candidate : Option String
  deriving DecidableEq, Repr

/-- Payload of `call-message`:
`{appointmentId, message, senderId, senderName, timestamp}`, any field
possibly absent. -/
structure MessageData where
  appointmentId : Option String
  message : Option String
  senderId : Option String
  senderName : Option String
  timestamp : Option String
  deriving DecidableEq, Repr

/-- Handler `socket.on('join-call', ...)` of `src/unnamed/part_002` lines
128–164: ignore a duplicate join (`socket.rooms.has(roomName)`), read
the room's occupancy before joining, join and track the room, emit
`room-joined {isInitiator: numClients === 0, userId}` to the joiner,
and, when the room was non-empty, `user-joined {userId, userRole}` to
the existing members. -/
def handleJoinCall (s : ServerState) (sid : Nat) (data : CallRef) :
    ServerState × List Event :=
  match findSocket s sid with
  | none => (s, [])
  | some sk =>
    let roomName := roomNameOf data.appointmentId
    if roomName ∈ sk.rooms then (s, [])
    else
      let numClients := (roomMemberIds s roomName).length
      let s1 := updateSocket s sid (joinUpdate roomName)
      let isInitiator := numClients = 0
      let joinedEv := Event.roomJoined sid isInitiator sk.userId
      let notifyEvs :=
        if numClients > 0 then
          emitToRoomExcept s1 roomName sid
            (fun recvr => Event.userJoined recvr sk.userId sk.userRole)
        else []
      (s1, joinedEv :: notifyEvs)

/-- Handler `socket.on('leave-call', ...)` of `src/unnamed/part_002` lines
166–183: no-op if not in the room, otherwise leave, untrack, and emit
`user-left {userId}` to the remaining members. -/
def handleLeaveCall (s : ServerState) (sid : Nat) (data : CallRef) :
    ServerState × List Event :=
  match findSocket s sid with
  | none => (s, [])
  | some sk =>
    let roomName := roomNameOf data.appointmentId
    if roomName ∉ sk.rooms then (s, [])
    else
      let s1 := updateSocket s sid (leaveUpdate roomName)
      (s1, emitToRoomExcept s1 roomName sid
        (fun recvr => Event.userLeft recvr sk.userId))

/-- Handler `socket.on('call-offer', ...)` (`part_002` lines 186–193,
identically `part_003` lines 163–170): forward
`{offer: data.offer, from: socket.userId}` to the named room with no
membership check and no state change. -/
def handleCallOffer (s : ServerState) (sid : Nat) (data : OfferData) :
    ServerState × List Event :=
  match findSocket s sid with
  | none => (s, [])
  | some sk =>
    let roomName := roomNameOf data.appointmentId
    (s, emitToRoomExcept s roomName sid
      (fun recvr => Event.callOffer recvr data.offer sk.userId))

/-- Handler `socket.on('call-answer', ...)` (`part_002` lines 195–202,
identically `part_003` lines 172–179): forward
`{answer: data.answer, from: socket.userId}` to the named room with no
membership check and no state change. -/
def handleCallAnswer (s : ServerState) (sid : Nat) (data : AnswerData) :
    ServerState × List Event :=
  match findSocket s sid with
  | none => (s, [])
  | some sk =>
    let roomName := roomNameOf data.appointmentId
    (s, emitToRoomExcept s roomName sid
      (fun recvr => Event.callAnswer recvr data.answer sk.userId))

/-- Handler `socket.on('ice-candidate', ...)` (`part_002` lines 204–211,
identically `part_003` lines 181–188): forward
`{candidate: data.candidate, from: socket.userId}` to the named room
with no membership check and no state change. -/
def handleIceCandidate (s : ServerState) (sid : Nat) (data : IceData) :
    ServerState × List Event :=
  match findSocket s sid with
  | none => (s, [])
  | some sk =>
    let roomName := roomNameOf data.appointmentId
    (s, emitToRoomExcept s roomName sid
      (fun recvr => Event.iceCandidate recvr data.candidate sk.userId))

/-- Handler `socket.on('call-message', ...)` of `src/unnamed/part_002` lines
214–223: forward `{message, senderId, senderName, timestamp}` to the
named room, each field copied verbatim from the inbound payload. -/
def handleCallMessage (s : ServerState) (sid : Nat) (data : MessageData) :
    ServerState × List Event :=
  match findSocket s sid with
  | none => (s, [])
  | some _ =>
    let roomName := roomNameOf data.appointmentId
    (s, emitToRoomExcept s roomName sid
      (fun recvr => Event.callMessage recvr data.message data.senderId
        data.senderName data.timestamp))

/-- Handler `socket.on('disconnect', ...)` of `src/unnamed/part_002` lines
225–238.  By the time `disconnect` fires, Socket.IO has already removed
the socket from every room (modelled by clearing its `rooms` first);
the handler then emits `user-left {userId}` to each room in
`socket.currentCallRooms` and clears that tracking set. -/
def handleDisconnect (s : ServerState) (sid : Nat) : ServerState × List Event :=
  match findSocket s sid with
  | none => (s, [])
  | some sk =>
    let s1 := updateSocket s sid clearRoomsUpdate
    let evs := sk.currentCallRooms.flatMap (fun roomName =>
      emitToRoomExcept s1 roomName sid
        (fun recvr => Event.userLeft recvr sk.userId))
    (updateSocket s1 sid clearTrackUpdate, evs)

/-- Handler `socket.on('join-call', ...)` of `src/unnamed/part_003` lines
120–149: like `part_002`'s handler but with no duplicate-join guard and
no `currentCallRooms` tracking — it re-reads the occupancy, re-joins,
and re-emits `room-joined` (and `user-joined` when the room was
non-empty) even when the sender is already a member. -/
def handleJoinCallV3 (s : ServerState) (sid : Nat) (data : CallRef) :
    ServerState × List Event :=
  match findSocket s sid with
  | none => (s, [])
  | some sk =>
    let roomName := roomNameOf data.appointmentId
    let numClients := (roomMemberIds s roomName).length
    let s1 := updateSocket s sid (fun sk0 =>
      { sk0 with rooms := setAdd sk0.rooms roomName })
    let isInitiator := numClients = 0
    let joinedEv := Event.roomJoined sid isInitiator sk.userId
    let notifyEvs :=
      if numClients > 0 then
        emitToRoomExcept s1 roomName sid
          (fun recvr => Event.userJoined recvr sk.userId sk.userRole)
      else []
    (s1, joinedEv :: notifyEvs)

/-- Handler `socket.on('leave-call', ...)` of `src/unnamed/part_003` lines
151–160: no membership check — `socket.leave(roomName)` (a no-op when
not a member) and then `user-left {userId}` to every socket in the
room. -/
def handleLeaveCallV3 (s : ServerState) (sid : Nat) (data : CallRef) :
    ServerState × List Event :=
  match findSocket s sid with
  | none => (s, [])
  | some sk =>
    let roomName := roomNameOf data.appointmentId
    let s1 := updateSocket s sid (fun sk0 =>
      { sk0 with rooms := setDelete sk0.rooms roomName })
    (s1, emitToRoomExcept s1 roomName sid
      (fun recvr => Event.userLeft recvr sk.userId))

/-- The identity `{userId, role}` extracted from a verified JWT. -/
structure Identity where
  userId : String
  role : String
  deriving DecidableEq, Repr

/-- The auth middleware `io.use` of `part_002` lines 101–116 (identical
in `part_003`): a missing or JS-falsy (empty) `handshake.auth.token`
refuses the connection; otherwise `jwt.verify` (abstracted as the
`verify` parameter) either yields the decoded `{userId, role}` or
throws, refusing the connection. -/
def authMiddleware (verify : String → Option Identity)
    (token : Option String) : Option Identity :=
  match token with
  | none => none
  | some t => if t = "" then none else verify t

/-- A connection attempt: run the auth middleware; on failure nothing is
registered (the connection handler never runs).  On success the
`connection` handler of `part_002` lines 118–125 runs: the socket is
registered with the decoded identity, joined to its personal room
`` `user_${userId}` ``, and given an empty `currentCallRooms` set. -/
def connectSocket (verify : String → Option Identity) (s : ServerState)
    (newId : Nat) (token : Option String) : ServerState × Bool :=
  match authMiddleware verify token with
  | none => (s, false)
  | some ident =>
      (⟨s.sockets ++ [{ id := newId, userId := ident.userId,
                        userRole := ident.role,
                        rooms := ["user_" ++ ident.userId],
                        currentCallRooms := [] }]⟩, true)

/-! ### Concrete fixtures used for evaluations, counterexamples and
witnesses: `alice` and `bob` are the two members of `call_apt1`, `sam`
is a connected socket that is not a member of any call room, and
`stateFresh` is a state in which nobody has joined any call room. -/

/-- A connected doctor socket, member of `call_apt1`. -/
def sockAlice : Socket :=
  { id := 0, userId := "alice", userRole := "doctor",
    rooms := ["user_alice", "call_apt1"], currentCallRooms := ["call_apt1"] }

/-- A connected patient socket, member of `call_apt1`. -/
def sockBob : Socket :=
  { id := 1, userId := "bob", userRole := "patient",
    rooms := ["user_bob", "call_apt1"], currentCallRooms := ["call_apt1"] }

/-- A connected socket that is in no call room. -/
def sockSam : Socket :=
  { id := 2, userId := "sam", userRole := "patient",
    rooms := ["user_sam"], currentCallRooms := [] }

/-- State with `alice` and `bob` in `call_apt1` and `sam` outside it. -/
def stateApt1 : ServerState := ⟨[sockAlice, sockBob, sockSam]⟩

/-- A connected patient socket in no call room (for the missing
`appointmentId` scenario). -/
def sockPat : Socket :=
  { id := 10, userId := "pat", userRole := "patient",
    rooms := ["user_pat"], currentCallRooms := [] }

/-- A connected doctor socket in no call room (for the missing
`appointmentId` scenario). -/
def sockDoc : Socket :=
  { id := 11, userId := "doc", userRole := "doctor",
    rooms := ["user_doc"], currentCallRooms := [] }

/-- State in which nobody has joined any call room. -/
def stateFresh : ServerState := ⟨[sockPat, sockDoc]⟩

/-- State after `pat` joins with a missing `appointmentId`. -/
def stateU1 : ServerState := (handleJoinCall stateFresh 10 ⟨none⟩).1

/-- State after `pat` and then `doc` join with a missing
`appointmentId`. -/
def stateU2 : ServerState := (handleJoinCall stateU1 11 ⟨none⟩).1

/-- C1: a `call-offer` sent by `sam`, who is not a member of
`call_apt1`, is delivered to both members of that room (and the state
is unchanged): the code forwards with no membership check and reports
no `NotInRoom` condition, contradicting the claim that such a message
is dropped and never delivered. -/
theorem c1_nonmember_offer_is_delivered :
    "call_apt1" ∉ sockSam.rooms
    ∧ handleCallOffer stateApt1 2 ⟨some "apt1", "X"⟩
        = (stateApt1, [Event.callOffer 0 "X" "sam", Event.callOffer 1 "X" "sam"])
    ∧ handleCallAnswer stateApt1 2 ⟨some "apt1", "Y"⟩
        = (stateApt1, [Event.callAnswer 0 "Y" "sam", Event.callAnswer 1 "Y" "sam"])
    ∧ handleIceCandidate stateApt1 2 ⟨some "apt1", some "cand"⟩
        = (stateApt1,
           [Event.iceCandidate 0 (some "cand") "sam",
            Event.iceCandidate 1 (some "cand") "sam"]) := by
  decide

/-- C2 counterexample: a `join-call` from `alice`, who is already a
member, arrives while `call_apt1` has two members, yet yields no
`room-joined` event at all (the duplicate-join guard returns early), so
not every join arriving at a non-empty room yields
`room-joined {isInitiator: false}`. -/
theorem c2_duplicate_join_emits_nothing :
    1 ≤ (roomMemberIds stateApt1 "call_apt1").length
    ∧ handleJoinCall stateApt1 0 ⟨some "apt1"⟩ = (stateApt1, []) := by
  decide

/-- C5 counterexample: in the `part_003` variant of the handlers, a
`leave-call` from `sam`, who is not a member of `call_apt1`, still
emits `user-left {userId: "sam"}` to the members of the room — the
leave is not an idempotent no-op there. -/
theorem c5_nonmember_leave_emits :
    "call_apt1" ∉ sockSam.rooms
    ∧ handleLeaveCallV3 stateApt1 2 ⟨some "apt1"⟩
        = (stateApt1, [Event.userLeft 0 "sam", Event.userLeft 1 "sam"]) := by
  decide

/-- C8 counterexample: a `call-message` whose inbound payload carries
no `timestamp` and no `senderName` is delivered with both fields still
absent — the relay copies the fields verbatim and adds nothing, so the
delivered event does not always carry a timestamp and sender name. -/
theorem c8_no_timestamp_added :
    handleCallMessage stateApt1 1 ⟨some "apt1", some "hi", some "bob", none, none⟩
      = (stateApt1, [Event.callMessage 0 (some "hi") (some "bob") none none]) := by
  decide

/-- C10: a `join-call` with a missing `appointmentId` is not rejected:
the room key is the string `call_undefined`, two connections joining
without an `appointmentId` land in that same shared room (`pat` as
initiator, `doc` as joiner, with `user-joined` delivered to `pat`), and
a subsequent `call-offer` sent without an `appointmentId` flows from
`doc` to `pat`. -/
theorem c10_undefined_appointment_shares_room :
    roomNameOf none = "call_undefined"
    ∧ (handleJoinCall stateFresh 10 ⟨none⟩).2 = [Event.roomJoined 10 true "pat"]
    ∧ (handleJoinCall stateU1 11 ⟨none⟩).2
        = [Event.roomJoined 11 false "doc", Event.userJoined 10 "doc" "doctor"]
    ∧ roomMemberIds stateU2 "call_undefined" = [10, 11]
    ∧ (handleCallOffer stateU2 11 ⟨none, "sdp-offer"⟩).2
        = [Event.callOffer 10 "sdp-offer" "doc"]
    ∧ (handleCallMessage stateU2 10 ⟨none, some "hello", some "pat", some "Pat", some "t0"⟩).2
        = [Event.callMessage 11 (some "hello") (some "pat") (some "Pat") (some "t0")] := by
  decide

/-! ### Helper lemmas about the state operations -/

lemma find?_updateSockets (l : List Socket) (sid : Nat) (f : Socket → Socket)
    (hf : ∀ sk, (f sk).id = sk.id) :
    (updateSockets l sid f).find? (fun sk => sk.id = sid)
      = Option.map f (l.find? (fun sk => sk.id = sid)) := by
  induction l with
  | nil => simp [updateSockets]
  | cons sk rest ih =>
    by_cases h : sk.id = sid
    · simp [updateSockets, h, List.find?_cons, hf]
    · simp [updateSockets, h, List.find?_cons, ih]

lemma findSocket_updateSocket (s : ServerState) (sid : Nat) (f : Socket → Socket)
    (hf : ∀ sk, (f sk).id = sk.id) :
    findSocket (updateSocket s sid f) sid = Option.map f (findSocket s sid) :=
  find?_updateSockets s.sockets sid f hf

lemma mem_updateSockets (l : List Socket) (sid : Nat) (f : Socket → Socket)
    (a : Socket) (ha : a ∈ l) (hne : a.id ≠ sid) :
    a ∈ updateSockets l sid f := by
  induction l with
  | nil => simp at ha
  | cons sk rest ih =>
    rcases List.mem_cons.mp ha with rfl | hmem
    · simp [updateSockets, hne]
    · by_cases h : sk.id = sid
      · simp [updateSockets, h, hmem]
      · simp only [updateSockets, if_neg h]
        exact List.mem_cons_of_mem _ (ih hmem)

lemma updateSockets_updateSockets (l : List Socket) (sid : Nat)
    (f g : Socket → Socket) (hf : ∀ sk, (f sk).id = sk.id) :
    updateSockets (updateSockets l sid f) sid g
      = updateSockets l sid (fun sk => g (f sk)) := by
  induction l with
  | nil => simp [updateSockets]
  | cons sk rest ih =>
    by_cases h : sk.id = sid
    · simp [updateSockets, h, hf]
    · simp [updateSockets, h, ih]

lemma updateSockets_eq_self (l : List Socket) (sid : Nat) (h : Socket → Socket)
    (sk : Socket) (hfind : l.find? (fun x => x.id = sid) = some sk)
    (hsk : h sk = sk) : updateSockets l sid h = l := by
  induction l with
  | nil => simp at hfind
  | cons a rest ih =>
    by_cases ha : a.id = sid
    · rw [List.find?_cons_of_pos _ (by simp [ha])] at hfind
      obtain rfl : a = sk := by injection hfind
      simp [updateSockets, ha, hsk]
    · rw [List.find?_cons_of_neg _ (by simp [ha])] at hfind
      simp [updateSockets, ha, ih hfind]

lemma setDelete_setAdd (l : List String) (x : String) (hx : x ∉ l) :
    setDelete (setAdd l x) x = l := by
  simp only [setAdd, if_neg hx, setDelete, List.filter_append]
  rw [List.filter_eq_self.mpr, List.filter_cons, if_neg (by simp), List.filter_nil,
    List.append_nil]
  intro a ha
  simp only [decide_eq_true_eq]
  exact fun e => hx (e ▸ ha)

lemma mem_setAdd_self (l : List String) (x : String) : x ∈ setAdd l x := by
  by_cases h : x ∈ l <;> simp [setAdd, h]

lemma emitToRoomExcept_eq (s : ServerState) (room : String) (sender : Nat)
    (mk : Nat → Event) :
    emitToRoomExcept s room sender mk
      = (((roomMemberIds s room).filter (fun i => i ≠ sender)).map mk) := by
  unfold emitToRoomExcept roomMemberIds
  induction s.sockets with
  | nil => simp
  | cons sk rest ih =>
    by_cases h1 : room ∈ sk.rooms <;> by_cases h2 : sk.id = sender <;>
      simp [List.filter_cons, h1, h2] <;> simpa using ih

lemma mem_emitToRoomExcept (s : ServerState) (room : String) (sender : Nat)
    (mk : Nat → Event) (e : Event) :
    e ∈ emitToRoomExcept s room sender mk
      ↔ ∃ sk ∈ s.sockets, room ∈ sk.rooms ∧ sk.id ≠ sender ∧ e = mk sk.id := by
  unfold emitToRoomExcept
  simp only [List.mem_map, List.mem_filter, decide_eq_true_eq]
  constructor
  · rintro ⟨sk, ⟨hmem, hcond⟩, rfl⟩
    exact ⟨sk, hmem, hcond.1, hcond.2, rfl⟩
  · rintro ⟨sk, hmem, h1, h2, rfl⟩
    exact ⟨sk, ⟨hmem, h1, h2⟩, rfl⟩

lemma emitToRoomExcept_updateSocket_sender (s : ServerState) (sid : Nat)
    (f : Socket → Socket) (hf : ∀ sk, (f sk).id = sk.id) (room : String)
    (mk : Nat → Event) :
    emitToRoomExcept (updateSocket s sid f) room sid mk
      = emitToRoomExcept s room sid mk := by
  unfold emitToRoomExcept updateSocket
  induction s.sockets with
  | nil => rfl
  | cons sk rest ih =>
    by_cases h : sk.id = sid <;> by_cases h1 : room ∈ sk.rooms <;>
      simp [updateSockets, h, h1, List.filter_cons, hf] <;> simpa using ih

lemma roomMemberIds_update_of_rooms_eq (s : ServerState) (sid : Nat)
    (f : Socket → Socket) (hf : ∀ sk, (f sk).rooms = sk.rooms)
    (hid : ∀ sk, (f sk).id = sk.id) (room : String) :
    roomMemberIds (updateSocket s sid f) room = roomMemberIds s room := by
  unfold roomMemberIds updateSocket
  induction s.sockets with
  | nil => rfl
  | cons sk rest ih =>
    by_cases h : sk.id = sid <;> by_cases h1 : room ∈ sk.rooms <;>
      simp [updateSockets, h, h1, List.filter_cons, hf, hid] <;> simpa using ih

lemma memberIds_updateSockets_clearRooms (l : List Socket) (sid : Nat)
    (room : String) (hnd : (l.map (fun sk => sk.id)).Nodup) :
    ((updateSockets l sid clearRoomsUpdate).filter
        (fun sk => room ∈ sk.rooms)).map (fun sk => sk.id)
      = ((l.filter (fun sk => room ∈ sk.rooms)).map (fun sk => sk.id)).filter
          (fun i => i ≠ sid) := by
  induction l with
  | nil => rfl
  | cons sk rest ihl =>
    rw [List.map_cons, List.nodup_cons] at hnd
    obtain ⟨hhead, htail⟩ := hnd
    by_cases h : sk.id = sid
    · have hall : ∀ i ∈ (rest.filter (fun sk0 => room ∈ sk0.rooms)).map
          (fun sk0 => sk0.id), (fun i => decide (i ≠ sid)) i = true := by
        intro i hi
        obtain ⟨sk', hsk', rfl⟩ := List.mem_map.mp hi
        have hmem : sk'.id ∈ rest.map (fun sk0 => sk0.id) :=
          List.mem_map_of_mem _ (List.mem_filter.mp hsk').1
        simp only [decide_eq_true_eq]
        intro e
        exact hhead (h ▸ e ▸ hmem)
      by_cases h1 : room ∈ sk.rooms <;>
        simp [updateSockets, h, h1, List.filter_cons, clearRoomsUpdate] <;>
        exact (List.filter_eq_self.mpr (by simpa using hall)).symm
    · by_cases h1 : room ∈ sk.rooms <;>
        simp [updateSockets, h, h1, List.filter_cons] <;> simpa using ihl htail

lemma find?_append_of_none {α : Type} (l1 l2 : List α) (p : α → Bool)
    (h : l1.find? p = none) : (l1 ++ l2).find? p = l2.find? p := by
  induction l1 with
  | nil => rfl
  | cons a rest ih =>
    cases hpa : p a with
    | true => rw [List.find?_cons_of_pos _ hpa] at h; simp at h
    | false =>
      rw [List.find?_cons_of_neg _ (by simp [hpa])] at h
      rw [List.cons_append, List.find?_cons_of_neg _ (by simp [hpa])]
      exact ih h

/-- C2 (amended: restricted to joins from a connection not already a
member of the room, since a duplicate join is swallowed by the guard):
the joiner receives `room-joined` whose `isInitiator` flag is computed
from the room's occupancy immediately before the join — `true` exactly
when the room was empty, `false` whenever it already had a member. -/
theorem c2_initiator_iff_room_was_empty (s : ServerState) (sid : Nat)
    (sk : Socket) (data : CallRef)
    (hfind : findSocket s sid = some sk)
    (hnew : roomNameOf data.appointmentId ∉ sk.rooms) :
    ∃ b : Bool,
      (handleJoinCall s sid data).2.head?
        = some (Event.roomJoined sid b sk.userId)
      ∧ (b = true ↔ roomMemberIds s (roomNameOf data.appointmentId) = []) := by
  refine ⟨decide ((roomMemberIds s (roomNameOf data.appointmentId)).length = 0),
    ?_, ?_⟩
  · simp [handleJoinCall, hfind, hnew]
  · simp [List.length_eq_zero]

/-- C2 witness: `sam` joins the already two-member room `call_apt1`. -/
theorem c2_initiator_iff_room_was_empty_witness :
    ∃ b : Bool,
      (handleJoinCall stateApt1 2 ⟨some "apt1"⟩).2.head?
        = some (Event.roomJoined 2 b sockSam.userId)
      ∧ (b = true ↔ roomMemberIds stateApt1 (roomNameOf (some "apt1")) = []) :=
  c2_initiator_iff_room_was_empty stateApt1 2 sockSam ⟨some "apt1"⟩
    (by decide) (by decide)

/-- C5 (amended: the idempotence holds for the `part_002` handlers,
which guard on `socket.rooms`; the `part_003` variant lacks the guards
— see the counterexample): a duplicate `join-call` changes nothing and
emits nothing, and a `leave-call` from a non-member changes nothing and
emits nothing. -/
theorem c5_join_leave_idempotent (s : ServerState) (sid : Nat) (sk : Socket)
    (data : CallRef) (hfind : findSocket s sid = some sk) :
    (roomNameOf data.appointmentId ∈ sk.rooms →
        handleJoinCall s sid data = (s, []))
    ∧ (roomNameOf data.appointmentId ∉ sk.rooms →
        handleLeaveCall s sid data = (s, [])) := by
  constructor
  · intro h; simp [handleJoinCall, hfind, h]
  · intro h; simp [handleLeaveCall, hfind, h]

/-- C5 witness: `alice`, already a member of `call_apt1`. -/
theorem c5_join_leave_idempotent_witness :
    (roomNameOf (CallRef.mk (some "apt1")).appointmentId ∈ sockAlice.rooms →
        handleJoinCall stateApt1 0 ⟨some "apt1"⟩ = (stateApt1, []))
    ∧ (roomNameOf (CallRef.mk (some "apt1")).appointmentId ∉ sockAlice.rooms →
        handleLeaveCall stateApt1 0 ⟨some "apt1"⟩ = (stateApt1, [])) :=
  c5_join_leave_idempotent stateApt1 0 sockAlice ⟨some "apt1"⟩ (by decide)

/-- C7: an `offer`/`answer`/`ice-candidate` from a member of the room
is delivered, with the opaque payload unmodified and tagged
`from: socket.userId`, to exactly the sockets that are currently in the
room and are not the sender; the state is unchanged. -/
theorem c7_relay_exactly_other_members (s : ServerState) (sid : Nat)
    (sk : Socket) (aid : Option String) (offer answer : String)
    (cand : Option String)
    (hfind : findSocket s sid = some sk)
    (hmem : roomNameOf aid ∈ sk.rooms) :
    (handleCallOffer s sid ⟨aid, offer⟩).1 = s
    ∧ (∀ e, e ∈ (handleCallOffer s sid ⟨aid, offer⟩).2
        ↔ ∃ skr ∈ s.sockets, roomNameOf aid ∈ skr.rooms ∧ skr.id ≠ sid
            ∧ e = Event.callOffer skr.id offer sk.userId)
    ∧ (∀ e, e ∈ (handleCallAnswer s sid ⟨aid, answer⟩).2
        ↔ ∃ skr ∈ s.sockets, roomNameOf aid ∈ skr.rooms ∧ skr.id ≠ sid
            ∧ e = Event.callAnswer skr.id answer sk.userId)
    ∧ (∀ e, e ∈ (handleIceCandidate s sid ⟨aid, cand⟩).2
        ↔ ∃ skr ∈ s.sockets, roomNameOf aid ∈ skr.rooms ∧ skr.id ≠ sid
            ∧ e = Event.iceCandidate skr.id cand sk.userId) := by
  refine ⟨by simp [handleCallOffer, hfind], fun e => ?_, fun e => ?_, fun e => ?_⟩
  · simp only [handleCallOffer, hfind]
    simpa using mem_emitToRoomExcept s (roomNameOf aid) sid _ e
  · simp only [handleCallAnswer, hfind]
    simpa using mem_emitToRoomExcept s (roomNameOf aid) sid _ e
  · simp only [handleIceCandidate, hfind]
    simpa using mem_emitToRoomExcept s (roomNameOf aid) sid _ e

/-- C7 witness: `alice`, a member of `call_apt1`, relays to `bob`. -/
theorem c7_relay_exactly_other_members_witness :
    (handleCallOffer stateApt1 0 ⟨some "apt1", "sdp"⟩).1 = stateApt1
    ∧ (∀ e, e ∈ (handleCallOffer stateApt1 0 ⟨some "apt1", "sdp"⟩).2
        ↔ ∃ skr ∈ stateApt1.sockets, roomNameOf (some "apt1") ∈ skr.rooms
            ∧ skr.id ≠ 0 ∧ e = Event.callOffer skr.id "sdp" sockAlice.userId)
    ∧ (∀ e, e ∈ (handleCallAnswer stateApt1 0 ⟨some "apt1", "sdp2"⟩).2
        ↔ ∃ skr ∈ stateApt1.sockets, roomNameOf (some "apt1") ∈ skr.rooms
            ∧ skr.id ≠ 0 ∧ e = Event.callAnswer skr.id "sdp2" sockAlice.userId)
    ∧ (∀ e, e ∈ (handleIceCandidate stateApt1 0 ⟨some "apt1", none⟩).2
        ↔ ∃ skr ∈ stateApt1.sockets, roomNameOf (some "apt1") ∈ skr.rooms
            ∧ skr.id ≠ 0 ∧ e = Event.iceCandidate skr.id none sockAlice.userId) :=
  c7_relay_exactly_other_members stateApt1 0 sockAlice (some "apt1") "sdp" "sdp2"
    none (by decide) (by decide)

/-- C8 (amended: the relay adds nothing — `message`, `senderId`,
`senderName` and `timestamp` are copied verbatim from the inbound
payload, so the delivered event carries a timestamp or sender name only
when the client supplied one): a `call-message` is delivered to exactly
the other sockets in the room with the four fields forwarded
unchanged, and the state is unmodified. -/
theorem c8_message_fields_verbatim (s : ServerState) (sid : Nat) (sk : Socket)
    (data : MessageData) (hfind : findSocket s sid = some sk) :
    (handleCallMessage s sid data).1 = s
    ∧ (∀ e, e ∈ (handleCallMessage s sid data).2
        ↔ ∃ skr ∈ s.sockets, roomNameOf data.appointmentId ∈ skr.rooms
            ∧ skr.id ≠ sid
            ∧ e = Event.callMessage skr.id data.message data.senderId
                data.senderName data.timestamp) := by
  refine ⟨by simp [handleCallMessage, hfind], fun e => ?_⟩
  simp only [handleCallMessage, hfind]
  simpa using mem_emitToRoomExcept s (roomNameOf data.appointmentId) sid _ e

/-- C8 witness: `bob` sends a chat message carrying no timestamp. -/
theorem c8_message_fields_verbatim_witness :
    (handleCallMessage stateApt1 1 ⟨some "apt1", some "hey", some "bob", none, none⟩).1
        = stateApt1
    ∧ (∀ e, e ∈ (handleCallMessage stateApt1 1
          ⟨some "apt1", some "hey", some "bob", none, none⟩).2
        ↔ ∃ skr ∈ stateApt1.sockets, roomNameOf (some "apt1") ∈ skr.rooms
            ∧ skr.id ≠ 1
            ∧ e = Event.callMessage skr.id (some "hey") (some "bob") none none) :=
  c8_message_fields_verbatim stateApt1 1 sockBob
    ⟨some "apt1", some "hey", some "bob", none, none⟩ (by decide)

/-- C3: a `join-call` from a connection that is not yet a member of a
room that already has (at least) two members is admitted — the joiner
ends up in the room, receives `room-joined {isInitiator: false}`, and
every existing member receives `user-joined` — the handler enforces no
two-party maximum. -/
theorem c3_third_join_admitted (s : ServerState) (sid : Nat) (sk : Socket)
    (data : CallRef) (hfind : findSocket s sid = some sk)
    (hnot : roomNameOf data.appointmentId ∉ sk.rooms)
    (hfull : 2 ≤ (roomMemberIds s (roomNameOf data.appointmentId)).length) :
    (∃ sk1, findSocket (handleJoinCall s sid data).1 sid = some sk1
        ∧ roomNameOf data.appointmentId ∈ sk1.rooms)
    ∧ (handleJoinCall s sid data).2.head?
        = some (Event.roomJoined sid false sk.userId)
    ∧ ∀ skr ∈ s.sockets, roomNameOf data.appointmentId ∈ skr.rooms →
        skr.id ≠ sid →
        Event.userJoined skr.id sk.userId sk.userRole
          ∈ (handleJoinCall s sid data).2 := by
  have hnz : ¬ (roomMemberIds s (roomNameOf data.appointmentId)).length = 0 := by
    omega
  have hpos : 0 < (roomMemberIds s (roomNameOf data.appointmentId)).length := by
    omega
  have hstep : handleJoinCall s sid data
      = (updateSocket s sid (joinUpdate (roomNameOf data.appointmentId)),
         Event.roomJoined sid false sk.userId ::
           emitToRoomExcept
             (updateSocket s sid (joinUpdate (roomNameOf data.appointmentId)))
             (roomNameOf data.appointmentId) sid
             (fun recvr => Event.userJoined recvr sk.userId sk.userRole)) := by
    simp [handleJoinCall, hfind, hnot, hnz, hpos]
  refine ⟨?_, by rw [hstep]; rfl, ?_⟩
  · refine ⟨joinUpdate (roomNameOf data.appointmentId) sk,
      ?_, mem_setAdd_self sk.rooms (roomNameOf data.appointmentId)⟩
    rw [hstep]
    have hfu := findSocket_updateSocket s sid
      (joinUpdate (roomNameOf data.appointmentId)) (fun _ => rfl)
    rw [hfu, hfind]
    rfl
  · intro skr hskr hr hne
    rw [hstep]
    exact List.mem_cons_of_mem _ ((mem_emitToRoomExcept _ _ _ _ _).mpr
      ⟨skr, mem_updateSockets s.sockets sid _ skr hskr hne, hr, hne, rfl⟩)

/-- C3 witness: `sam` joins `call_apt1`, which already holds `alice`
and `bob`. -/
theorem c3_third_join_admitted_witness :
    (∃ sk1, findSocket (handleJoinCall stateApt1 2 ⟨some "apt1"⟩).1 2 = some sk1
        ∧ roomNameOf (some "apt1") ∈ sk1.rooms)
    ∧ (handleJoinCall stateApt1 2 ⟨some "apt1"⟩).2.head?
        = some (Event.roomJoined 2 false sockSam.userId)
    ∧ ∀ skr ∈ stateApt1.sockets, roomNameOf (some "apt1") ∈ skr.rooms →
        skr.id ≠ 2 →
        Event.userJoined skr.id sockSam.userId sockSam.userRole
          ∈ (handleJoinCall stateApt1 2 ⟨some "apt1"⟩).2 :=
  c3_third_join_admitted stateApt1 2 sockSam ⟨some "apt1"⟩ (by decide) (by decide)
    (by decide)

/-- C9: when the credential is missing or fails verification the
connection is refused before registration — the state is untouched and
the join/signal handlers are no-ops for that (never-registered)
transport; when verification succeeds, the connection is registered
with exactly the `{userId, role}` the token decoded to, in its personal
room and with an empty call-room tracking set. -/
theorem c9_auth_gates_registration (verify : String → Option Identity)
    (s : ServerState) (nid : Nat) (token : Option String) (d : CallRef)
    (od : OfferData) (hfresh : findSocket s nid = none) :
    (authMiddleware verify token = none →
        connectSocket verify s nid token = (s, false)
        ∧ handleJoinCall s nid d = (s, [])
        ∧ handleCallOffer s nid od = (s, []))
    ∧ (∀ ident, authMiddleware verify token = some ident →
        ∃ sk, findSocket (connectSocket verify s nid token).1 nid = some sk
          ∧ sk.userId = ident.userId ∧ sk.userRole = ident.role
          ∧ sk.rooms = ["user_" ++ ident.userId]
          ∧ sk.currentCallRooms = []) := by
  constructor
  · intro h
    exact ⟨by simp [connectSocket, h], by simp [handleJoinCall, hfresh],
      by simp [handleCallOffer, hfresh]⟩
  · intro ident h
    refine ⟨⟨nid, ident.userId, ident.role, ["user_" ++ ident.userId], []⟩,
      ?_, rfl, rfl, rfl, rfl⟩
    have hc : (connectSocket verify s nid token).1
        = ServerState.mk (s.sockets
            ++ [Socket.mk nid ident.userId ident.role
                  ["user_" ++ ident.userId] []]) := by
      simp [connectSocket, h]
    rw [hc]
    unfold findSocket at hfresh ⊢
    rw [find?_append_of_none _ _ _ hfresh]
    simp

/-- A concrete stand-in for the abstracted `jwt.verify`, used by the
C9 witness. -/
def demoVerify : String → Option Identity :=
  fun t => if t = "tok-good" then some ⟨"carol", "patient"⟩ else none

/-- C9 witness: a fresh connection id presenting a valid token. -/
theorem c9_auth_gates_registration_witness :
    (authMiddleware demoVerify (some "tok-good") = none →
        connectSocket demoVerify stateFresh 7 (some "tok-good")
            = (stateFresh, false)
        ∧ handleJoinCall stateFresh 7 ⟨some "apt1"⟩ = (stateFresh, [])
        ∧ handleCallOffer stateFresh 7 ⟨some "apt1", "o"⟩ = (stateFresh, []))
    ∧ (∀ ident, authMiddleware demoVerify (some "tok-good") = some ident →
        ∃ sk, findSocket
              (connectSocket demoVerify stateFresh 7 (some "tok-good")).1 7
            = some sk
          ∧ sk.userId = ident.userId ∧ sk.userRole = ident.role
          ∧ sk.rooms = ["user_" ++ ident.userId]
          ∧ sk.currentCallRooms = []) :=
  c9_auth_gates_registration demoVerify stateFresh 7 (some "tok-good")
    ⟨some "apt1"⟩ ⟨some "apt1", "o"⟩ (by decide)

/-- C6: for a connection not currently in the room (and hence, by the
handler's own bookkeeping, not tracking it), `join` followed by `leave`
restores exactly the pre-join server state, so a second `join` behaves
exactly like the first: same resulting state and same emitted events,
with the initiator flag recomputed from current occupancy. -/
theorem c6_join_leave_join_equals_first_join (s : ServerState) (sid : Nat)
    (sk : Socket) (data : CallRef)
    (hfind : findSocket s sid = some sk)
    (hroom : roomNameOf data.appointmentId ∉ sk.rooms)
    (htrack : roomNameOf data.appointmentId ∉ sk.currentCallRooms) :
    (handleLeaveCall (handleJoinCall s sid data).1 sid data).1 = s
    ∧ handleJoinCall (handleLeaveCall (handleJoinCall s sid data).1 sid data).1
        sid data = handleJoinCall s sid data := by
  have hj : (handleJoinCall s sid data).1
      = updateSocket s sid (joinUpdate (roomNameOf data.appointmentId)) := by
    simp [handleJoinCall, hfind, hroom]
  have hfj : findSocket (updateSocket s sid
        (joinUpdate (roomNameOf data.appointmentId))) sid
      = some (joinUpdate (roomNameOf data.appointmentId) sk) := by
    rw [findSocket_updateSocket s sid
      (joinUpdate (roomNameOf data.appointmentId)) (fun _ => rfl), hfind]
    rfl
  have hm : roomNameOf data.appointmentId
      ∈ (joinUpdate (roomNameOf data.appointmentId) sk).rooms :=
    mem_setAdd_self sk.rooms (roomNameOf data.appointmentId)
  have hcomp : leaveUpdate (roomNameOf data.appointmentId)
      (joinUpdate (roomNameOf data.appointmentId) sk) = sk := by
    obtain ⟨i, u, ur, rs, cc⟩ := sk
    simp only [leaveUpdate, joinUpdate]
    rw [setDelete_setAdd rs (roomNameOf data.appointmentId) hroom,
      setDelete_setAdd cc (roomNameOf data.appointmentId) htrack]
  have hkey : (handleLeaveCall (handleJoinCall s sid data).1 sid data).1 = s := by
    rw [hj]
    simp only [handleLeaveCall, hfj]
    rw [if_neg (by simpa using hm)]
    show updateSocket (updateSocket s sid
        (joinUpdate (roomNameOf data.appointmentId))) sid
        (leaveUpdate (roomNameOf data.appointmentId)) = s
    unfold updateSocket
    rw [updateSockets_updateSockets s.sockets sid
      (joinUpdate (roomNameOf data.appointmentId))
      (leaveUpdate (roomNameOf data.appointmentId)) (fun _ => rfl)]
    rw [updateSockets_eq_self s.sockets sid _ sk hfind hcomp]
  exact ⟨hkey, by rw [hkey]⟩

/-- C6 witness: `sam` joins, leaves and rejoins `call_apt1`. -/
theorem c6_join_leave_join_equals_first_join_witness :
    (handleLeaveCall (handleJoinCall stateApt1 2 ⟨some "apt1"⟩).1 2
        ⟨some "apt1"⟩).1 = stateApt1
    ∧ handleJoinCall (handleLeaveCall (handleJoinCall stateApt1 2
        ⟨some "apt1"⟩).1 2 ⟨some "apt1"⟩).1 2 ⟨some "apt1"⟩
      = handleJoinCall stateApt1 2 ⟨some "apt1"⟩ :=
  c6_join_leave_join_equals_first_join stateApt1 2 sockSam ⟨some "apt1"⟩
    (by decide) (by decide) (by decide)

/-- C4: for every connection that disconnects, the cleanup emits, in
the one processing step, per tracked call room exactly one
`user-left {userId}` to each remaining member of that room (and nothing
to anyone else); afterwards every room's member list is exactly its
previous member list minus the disconnected connection — in particular
disconnecting either member of a two-member room leaves exactly the
other — and running the disconnect cleanup again emits nothing. -/
theorem c4_disconnect_notifies_peer_once (s : ServerState) (sid : Nat)
    (skB : Socket)
    (hfind : findSocket s sid = some skB)
    (hnd : (s.sockets.map (fun sk => sk.id)).Nodup) :
    (handleDisconnect s sid).2
      = skB.currentCallRooms.flatMap (fun rn =>
          ((roomMemberIds s rn).filter (fun i => i ≠ sid)).map
            (fun i => Event.userLeft i skB.userId))
    ∧ (∀ rn ∈ skB.currentCallRooms, ∀ m ∈ roomMemberIds s rn, m ≠ sid →
        (((roomMemberIds s rn).filter (fun i => i ≠ sid)).map
            (fun i => Event.userLeft i skB.userId)).count
          (Event.userLeft m skB.userId) = 1)
    ∧ (∀ rn, roomMemberIds (handleDisconnect s sid).1 rn
        = (roomMemberIds s rn).filter (fun i => i ≠ sid))
    ∧ (∀ rn aid, roomMemberIds s rn = [aid, sid]
          ∨ roomMemberIds s rn = [sid, aid] → aid ≠ sid →
        roomMemberIds (handleDisconnect s sid).1 rn = [aid])
    ∧ ∀ t tid, (handleDisconnect (handleDisconnect t tid).1 tid).2 = [] := by
  have hd : handleDisconnect s sid
      = (updateSocket (updateSocket s sid clearRoomsUpdate) sid clearTrackUpdate,
         skB.currentCallRooms.flatMap (fun roomName =>
           emitToRoomExcept (updateSocket s sid clearRoomsUpdate) roomName sid
             (fun recvr => Event.userLeft recvr skB.userId))) := by
    simp [handleDisconnect, hfind]
  have hbatch : ∀ rn : String,
      emitToRoomExcept (updateSocket s sid clearRoomsUpdate) rn sid
        (fun recvr => Event.userLeft recvr skB.userId)
      = ((roomMemberIds s rn).filter (fun i => i ≠ sid)).map
          (fun i => Event.userLeft i skB.userId) := by
    intro rn
    rw [emitToRoomExcept_updateSocket_sender s sid clearRoomsUpdate
      (fun _ => rfl) rn]
    exact emitToRoomExcept_eq s rn sid _
  have hnodup_mids : ∀ rn : String, (roomMemberIds s rn).Nodup := by
    intro rn
    exact List.Nodup.sublist
      (List.Sublist.map _ (List.filter_sublist s.sockets)) hnd
  have h3 : ∀ rn, roomMemberIds (handleDisconnect s sid).1 rn
      = (roomMemberIds s rn).filter (fun i => i ≠ sid) := by
    intro rn
    rw [hd]
    show roomMemberIds (updateSocket (updateSocket s sid clearRoomsUpdate) sid
        clearTrackUpdate) rn = _
    rw [roomMemberIds_update_of_rooms_eq (updateSocket s sid clearRoomsUpdate)
      sid clearTrackUpdate (fun _ => rfl) (fun _ => rfl) rn]
    show ((updateSockets s.sockets sid clearRoomsUpdate).filter
        (fun sk => rn ∈ sk.rooms)).map (fun sk => sk.id) = _
    exact memberIds_updateSockets_clearRooms s.sockets sid rn hnd
  refine ⟨?_, ?_, h3, ?_, ?_⟩
  · rw [hd]
    show skB.currentCallRooms.flatMap _ = _
    exact congrArg _ (funext hbatch)
  · intro rn _ m hm hmne
    have hinj : Function.Injective (fun i => Event.userLeft i skB.userId) := by
      intro a b hab
      simpa using hab
    rw [List.count_map_of_injective _ _ hinj]
    exact List.count_eq_one_of_mem ((hnodup_mids rn).filter _)
      (List.mem_filter.mpr ⟨hm, by simpa using hmne⟩)
  · intro rn aid hcase hne
    rw [h3 rn]
    rcases hcase with h | h <;> rw [h] <;> simp [hne]
  · intro t tid
    cases hft : findSocket t tid with
    | none =>
      have ht : handleDisconnect t tid = (t, []) := by
        simp [handleDisconnect, hft]
      rw [ht]
      simp [handleDisconnect, hft]
    | some sk0 =>
      have hd1 : (handleDisconnect t tid).1
          = updateSocket (updateSocket t tid clearRoomsUpdate) tid
              clearTrackUpdate := by
        simp [handleDisconnect, hft]
      have hf2 : findSocket (handleDisconnect t tid).1 tid
          = some (clearTrackUpdate (clearRoomsUpdate sk0)) := by
        rw [hd1,
          findSocket_updateSocket _ _ clearTrackUpdate (fun _ => rfl),
          findSocket_updateSocket _ _ clearRoomsUpdate (fun _ => rfl), hft]
        rfl
      generalize hg : (handleDisconnect t tid).1 = t1 at hf2 ⊢
      simp [handleDisconnect, hf2, clearTrackUpdate]

/-- C4 witness: `bob` disconnects from the full room `call_apt1`,
leaving `alice` alone with a single `user-left`. -/
theorem c4_disconnect_notifies_peer_once_witness :
    (handleDisconnect stateApt1 1).2
      = sockBob.currentCallRooms.flatMap (fun rn =>
          ((roomMemberIds stateApt1 rn).filter (fun i => i ≠ 1)).map
            (fun i => Event.userLeft i sockBob.userId))
    ∧ (∀ rn ∈ sockBob.currentCallRooms, ∀ m ∈ roomMemberIds stateApt1 rn,
        m ≠ 1 →
        (((roomMemberIds stateApt1 rn).filter (fun i => i ≠ 1)).map
            (fun i => Event.userLeft i sockBob.userId)).count
          (Event.userLeft m sockBob.userId) = 1)
    ∧ (∀ rn, roomMemberIds (handleDisconnect stateApt1 1).1 rn
        = (roomMemberIds stateApt1 rn).filter (fun i => i ≠ 1))
    ∧ (∀ rn aid, roomMemberIds stateApt1 rn = [aid, 1]
          ∨ roomMemberIds stateApt1 rn = [1, aid] → aid ≠ 1 →
        roomMemberIds (handleDisconnect stateApt1 1).1 rn = [aid])
    ∧ ∀ t tid, (handleDisconnect (handleDisconnect t tid).1 tid).2 = [] :=
  c4_disconnect_notifies_peer_once stateApt1 1 sockBob (by decide) (by decide)
